import Mathlib

/-!
# Verification of the `inactivity-monitor` monitoring loop

This file gives a shallow embedding of the state, the activity merge and the
monitoring loop of the `inactivity-monitor` repository, and proves (or
refutes) the frozen claims about it.

Sources embedded here:
* `core/state_manager.py`  — the persistent state dictionary (`DEFAULT_STATE`,
  `reset_monitoring_flags`),
* `core/activity_manager.py` — `manage_activity_time`, the sample/merge step,
* `core/input.py` — `get_last_input_time` (probe; its parameter count matters),
* `service/monitor.py` — the body of the `while True` loop in `main` (one
  "tick"): weekly-schedule evaluation, the 30/60/90 threshold latches, the
  terminal threshold, persisting and the 30-second delay.

Modelling conventions:
* Python `float` values (timestamps, minute counts, `threshold * 0.3`) are
  modelled as rationals `ℚ`, with `0.3 = 3/10` exact.
* The timestamps stored with `int(...)` are modelled as `Int`.
* A dictionary key that may be absent is modelled as an `Option`: the loop
  reads the per-level latch keys with `state.get("monitoring_at_30")`
  (absent ⇒ `None`, falsy) and the weekly timestamp with
  `state.get("last_weekly_monitoring_sent", 0)`.
* The probes (`get_last_login_time`, `xprintidle`, `psutil.users()`) read the
  outside world; one tick's probe results are passed in as a `TickInput`.
* `datetime.fromtimestamp(ts).date()` is modelled by an abstract function
  `dateOf : ℚ → Int` mapping a timestamp to (an ordinal of) its calendar
  date; `now.date()` is `dateOf now.ts` since `now_timestamp = now.timestamp()`.
* Sending an email is modelled as emitting an `Email` value.
-/

namespace InactivityMonitor

/-- Emails the service can send from inside the loop, one constructor per
`send_*` helper called there (`core/email_utils.py`). -/
inductive Email
  | weekly
  | threshold30
  | threshold60
  | threshold90
  | alertRecipient
  | alertMonitoring
  deriving DecidableEq, Repr

/-- Phases of one loop tick, used to record the order in which the loop body
of `service/monitor.py:main` performs them. -/
inductive Step
  | sample
  | merge
  | weeklyEval
  | thresholdEval
  | persist
  | delay
  deriving DecidableEq, Repr

/-- The persistent state dictionary of `core/state_manager.py`.  The first
eight fields are the keys of `DEFAULT_STATE` (so they are always present
after `load_state`); the `Option`-typed fields are keys that `DEFAULT_STATE`
does *not* contain and that only appear once some code writes them
(`monitoring_at_30/60/90` and `last_weekly_monitoring_sent` are written by
the monitor loop itself). -/
structure MState where
  last_login_timestamp : Int
  last_input_timestamp : Int
  threshold_reached : Bool
  monitoring_30_reached : Bool
  monitoring_60_reached : Bool
  monitoring_90_reached : Bool
  service_disabled : Bool
  last_weekly_monitoring_timestamp : ℚ
  monitoring_at_30 : Option Bool := none
  monitoring_at_60 : Option Bool := none
  monitoring_at_90 : Option Bool := none
  last_weekly_monitoring_sent : Option ℚ := none
  deriving DecidableEq, Repr

/-- `DEFAULT_STATE` of `core/state_manager.py` (the latch keys and the
`last_weekly_monitoring_sent` key are absent from it). -/
def DEFAULT_STATE : MState where
  last_login_timestamp := 0
  last_input_timestamp := 0
  threshold_reached := false
  monitoring_30_reached := false
  monitoring_60_reached := false
  monitoring_90_reached := false
  service_disabled := false
  last_weekly_monitoring_timestamp := 0

/-- `reset_monitoring_flags` of `core/state_manager.py`: it loads the state,
sets the five listed flags to `False` and saves.  Note the key names it
resets: `monitoring_30_reached` etc., *not* `monitoring_at_30` etc. -/
def reset_monitoring_flags (s : MState) : MState :=
  { s with
    threshold_reached := false
    monitoring_30_reached := false
    monitoring_60_reached := false
    monitoring_90_reached := false
    service_disabled := false }

/-- The settings values read by `service/monitor.py:main` from
`load_settings()` before the loop starts (held constant for the whole run). -/
structure Settings where
  monitoring_at_30 : Bool
  monitoring_at_60 : Bool
  monitoring_at_90 : Bool
  monitoring_weekly_enabled : Bool
  monitoring_weekly_day : Nat
  monitoring_weekly_hour : Nat
  deriving DecidableEq, Repr

/-- The values `datetime.now()` provides to one tick: `now.weekday()`,
`now.hour` and `now.timestamp()`; `now.date()` is `dateOf ts`. -/
structure Now where
  weekday : Nat
  hour : Nat
  ts : ℚ
  deriving DecidableEq, Repr

/-- Environment data consumed by one tick: the clock and the probe results
(`get_last_login_time()`, `psutil.users()` non-empty, last input time). -/
structure TickInput where
  now : Now
  sampleLogin : Option Int
  loggedIn : Bool
  sampleIdle : Option Int
  deriving DecidableEq, Repr

/-- The login block of `manage_activity_time` (`core/activity_manager.py`
lines 55-60): raise the login watermark when the sampled login time is
present and strictly newer than the stored one. -/
def mergeLogin (sampleLogin : Option Int) (s : MState) : MState :=
  match sampleLogin with
  | none => s
  | some loginTs =>
      if s.last_login_timestamp < loginTs then
        { s with last_login_timestamp := loginTs }
      else s

/-- The input block of `manage_activity_time` (`core/activity_manager.py`
lines 62-78): only when a user is currently logged in, raise the input
watermark when the sampled input time is present and strictly newer. -/
def mergeInput (loggedIn : Bool) (sampleIdle : Option Int) (s : MState) :
    MState :=
  if loggedIn then
    match sampleIdle with
    | none => s
    | some idleTs =>
        if s.last_input_timestamp < idleTs then
          { s with last_input_timestamp := idleTs }
        else s
  else s

/-- `manage_activity_time` of `core/activity_manager.py`, given the probe
results: the login block followed by the input block.  All other fields are
returned unchanged. -/
def manage_activity_time (sampleLogin : Option Int) (loggedIn : Bool)
    (sampleIdle : Option Int) (s : MState) : MState :=
  mergeInput loggedIn sampleIdle (mergeLogin sampleLogin s)

/-- Python call protocol at a call site: an error value for the `TypeError`
raised when the number of arguments does not match the function's
parameter count. -/
inductive PyErr
  | typeError
  deriving DecidableEq, Repr

/-- Call a Python function: if the argument count differs from the parameter
count the call raises `TypeError` instead of running the body. -/
def callPy {α : Type} (paramCount argCount : Nat) (body : α) : Except PyErr α :=
  if argCount = paramCount then .ok body else .error .typeError

/-- Parameter count of `get_last_input_time` as defined in `core/input.py`
(line 21: `def get_last_input_time():`). -/
def get_last_input_time_paramCount : Nat := 0

/-- Argument count at the call site in `core/activity_manager.py` line 46:
`last_idle = get_last_input_time(enable_logs)`. -/
def get_last_input_time_argCount : Nat := 1

/-- `manage_activity_time` including the call protocol of its probe calls:
before any merging it evaluates `get_last_input_time(enable_logs)`, which is
a 1-argument call of a 0-parameter function.  `probeIdle` is what the probe
body would return if the call reached it. -/
def manage_activity_time_checked (sampleLogin : Option Int) (loggedIn : Bool)
    (probeIdle : Option Int) (s : MState) : Except PyErr MState := do
  let sampleIdle ← callPy get_last_input_time_paramCount
    get_last_input_time_argCount probeIdle
  return manage_activity_time sampleLogin loggedIn sampleIdle s

/-- Body of `get_last_input_time` in `core/input.py` (as it would run when
called correctly): `None` when `xprintidle` is unavailable or its probe
fails, otherwise `now - idle` where `idle` is the reported idle span. -/
def get_last_input_time_body (available : Bool) (probe : Option ℚ)
    (nowTs : ℚ) : Option ℚ :=
  if available then
    match probe with
    | some idleMs => some (nowTs - idleMs / 1000)
    | none => none
  else none

/-- The state `state_updated_with_time` a tick works with after its merge
phase: `manage_activity_time` applied to the tick's probe results. -/
def mergedOf (inp : TickInput) (s : MState) : MState :=
  manage_activity_time inp.sampleLogin inp.loggedIn inp.sampleIdle s

/-- `last_activity_timestamp` as computed at `service/monitor.py` line 140:
`max(last_input_timestamp, last_login_timestamp)` of the merged state. -/
def lastActivityTimestamp (s : MState) : Int :=
  max s.last_input_timestamp s.last_login_timestamp

/-- `diff_ts_minutes` as computed at `service/monitor.py` lines 223-224:
`(now_timestamp - last_activity_timestamp) / 60`. -/
def inactivityMinutes (nowTs : ℚ) (lastActivity : Int) : ℚ :=
  (nowTs - (lastActivity : ℚ)) / 60

/-- `last_sent_date` of the weekly block (`service/monitor.py` lines
163-175): the calendar date of `state.get("last_weekly_monitoring_sent", 0)`
when that timestamp is positive, `None` otherwise. -/
def weeklyLastSentDate (dateOf : ℚ → Int) (s : MState) : Option Int :=
  let lastSentTs := s.last_weekly_monitoring_sent.getD 0
  if 0 < lastSentTs then some (dateOf lastSentTs) else none

/-- The weekly send condition of `service/monitor.py` lines 183-187. -/
def weeklyShouldSend (dateOf : ℚ → Int) (st : Settings) (now : Now)
    (s : MState) : Prop :=
  now.weekday = st.monitoring_weekly_day ∧
    st.monitoring_weekly_hour ≤ now.hour ∧
    weeklyLastSentDate dateOf s ≠ some (dateOf now.ts)

instance (dateOf : ℚ → Int) (st : Settings) (now : Now) (s : MState) :
    Decidable (weeklyShouldSend dateOf st now s) := by
  unfold weeklyShouldSend; infer_instance

/-- The weekly-monitoring block of the tick (`service/monitor.py` lines
145-220).  When the setting is enabled it sends the weekly email exactly
when `now_day == monitoring_weekly_day and now_hour >= monitoring_weekly_hour
and last_sent_date != now_date`, recording `now_timestamp` as the new
`last_weekly_monitoring_sent`. -/
def weeklyStep (dateOf : ℚ → Int) (st : Settings) (now : Now) (s : MState) :
    MState × List Email :=
  if st.monitoring_weekly_enabled then
    let lastSentDate := weeklyLastSentDate dateOf s
    if now.weekday = st.monitoring_weekly_day ∧
        st.monitoring_weekly_hour ≤ now.hour ∧
        lastSentDate ≠ some (dateOf now.ts) then
      ({ s with last_weekly_monitoring_sent := some now.ts }, [Email.weekly])
    else (s, [])
  else (s, [])

/-- One percentage-level block of the tick (the 30%, 60% and 90% blocks at
`service/monitor.py` lines 227-273 all have this shape).  Arguments: the
level's enabled setting, whether `diff_ts_minutes` is at or above the
level's cutoff, and the stored latch (`state.get("monitoring_at_NN")`).
Returns the new latch value and whether the level's email is sent.  When the
setting is disabled nothing at all happens to the latch. -/
def levelTick (enabled : Bool) (above : Bool) (latch : Option Bool) :
    Option Bool × Bool :=
  if enabled then
    if above then
      if latch.getD false = false then (some true, true) else (latch, false)
    else (some false, false)
  else (latch, false)

/-- The threshold section of the tick (`service/monitor.py` lines 222-288):
guarded by `last_activity_timestamp > 0`; evaluates the three percentage
levels in order and then the terminal threshold
(`diff_ts_minutes >= threshold`), which sends the two alert emails and sets
`threshold_reached`. -/
def thresholdStep (st : Settings) (threshold : ℚ) (nowTs : ℚ)
    (lastActivity : Int) (s : MState) : MState × List Email :=
  if 0 < lastActivity then
    let diff := inactivityMinutes nowTs lastActivity
    let r30 := levelTick st.monitoring_at_30
      (decide (threshold * (3 / 10) ≤ diff)) s.monitoring_at_30
    let r60 := levelTick st.monitoring_at_60
      (decide (threshold * (6 / 10) ≤ diff)) s.monitoring_at_60
    let r90 := levelTick st.monitoring_at_90
      (decide (threshold * (9 / 10) ≤ diff)) s.monitoring_at_90
    let s1 := { s with
      monitoring_at_30 := r30.1
      monitoring_at_60 := r60.1
      monitoring_at_90 := r90.1 }
    let levelEmails :=
      (if r30.2 then [Email.threshold30] else []) ++
      (if r60.2 then [Email.threshold60] else []) ++
      (if r90.2 then [Email.threshold90] else [])
    if threshold ≤ diff then
      ({ s1 with threshold_reached := true },
        levelEmails ++ [Email.alertRecipient, Email.alertMonitoring])
    else (s1, levelEmails)
  else (s, [])

/-- Result of one loop tick: the state passed to `save_state`, the emails
sent during the tick (in sending order), and the phases performed (in
order). -/
structure TickResult where
  state : MState
  emails : List Email
  trace : List Step
  deriving DecidableEq, Repr

/-- One tick of the `while True` loop of `service/monitor.py:main` (lines
128-301), in source order: `manage_activity_time` (sampling the probes and
merging), computing `last_activity_timestamp`, the weekly-monitoring block,
the threshold section, `save_state`, and `time.sleep(30)` unless the tick
ended with `threshold_reached` (in which case the loop breaks before
sleeping). -/
def monitorTick (dateOf : ℚ → Int) (st : Settings) (threshold : ℚ)
    (inp : TickInput) (s : MState) : TickResult :=
  let tr0 := [Step.sample, Step.merge]
  let s1 := mergedOf inp s
  let lastActivity := lastActivityTimestamp s1
  let tr1 := tr0 ++ [Step.weeklyEval]
  let w := weeklyStep dateOf st inp.now s1
  let tr2 := tr1 ++ [Step.thresholdEval]
  let t := thresholdStep st threshold inp.now.ts lastActivity w.1
  let tr3 := tr2 ++ [Step.persist]
  { state := t.1
    emails := w.2 ++ t.2
    trace := if t.1.threshold_reached then tr3 else tr3 ++ [Step.delay] }

/-- The loop of `service/monitor.py:main`, run on a list of per-tick inputs:
after each tick the saved state feeds the next tick (the tick reloads it
with `load_state`), and the loop breaks as soon as a tick ends with
`threshold_reached`.  Returns the executed ticks' results in order. -/
def runTicks (dateOf : ℚ → Int) (st : Settings) (threshold : ℚ) :
    List TickInput → MState → List TickResult
  | [], _ => []
  | inp :: rest, s =>
    let r := monitorTick dateOf st threshold inp s
    if r.state.threshold_reached then [r]
    else r :: runTicks dateOf st threshold rest r.state

/-- Placeholder tick result used as the default of `List.getD`. -/
def blankTick : TickResult :=
  { state := DEFAULT_STATE, emails := [], trace := [] }

/-- The latch dynamics of one enabled-or-disabled percentage level across a
run, abstracted to the sequence of ticks in which a measurement happened
(ticks with `last_activity_timestamp <= 0` skip the threshold section and
leave every latch untouched, so they are dropped).  Input: the level's
above-cutoff flag of each measured tick in order; output: for each such
tick, whether the level's email is sent on it. -/
def levelRun (enabled : Bool) : Option Bool → List Bool → List Bool
  | _, [] => []
  | latch, above :: rest =>
    let r := levelTick enabled above latch
    r.2 :: levelRun enabled r.1 rest

/-! ## Helper lemmas about the merge step -/

theorem mergeLogin_login_le (sampleLogin : Option Int) (s : MState) :
    s.last_login_timestamp ≤ (mergeLogin sampleLogin s).last_login_timestamp := by
  unfold mergeLogin
  cases sampleLogin with
  | none => exact le_refl _
  | some loginTs =>
    by_cases h : s.last_login_timestamp < loginTs <;> simp [h] <;> omega

theorem mergeLogin_only_login (sampleLogin : Option Int) (s : MState) :
    (mergeLogin sampleLogin s) =
      { s with last_login_timestamp :=
          (mergeLogin sampleLogin s).last_login_timestamp } := by
  unfold mergeLogin
  cases sampleLogin with
  | none => rfl
  | some loginTs =>
    by_cases h : s.last_login_timestamp < loginTs <;> simp [h]

theorem mergeInput_input_le (loggedIn : Bool) (sampleIdle : Option Int)
    (s : MState) :
    s.last_input_timestamp ≤ (mergeInput loggedIn sampleIdle s).last_input_timestamp := by
  unfold mergeInput
  cases loggedIn with
  | false => exact le_refl _
  | true =>
    cases sampleIdle with
    | none => exact le_refl _
    | some idleTs =>
      by_cases h : s.last_input_timestamp < idleTs <;> simp [h] <;> omega

theorem mergeInput_only_input (loggedIn : Bool) (sampleIdle : Option Int)
    (s : MState) :
    (mergeInput loggedIn sampleIdle s) =
      { s with last_input_timestamp :=
          (mergeInput loggedIn sampleIdle s).last_input_timestamp } := by
  unfold mergeInput
  cases loggedIn with
  | false => rfl
  | true =>
    cases sampleIdle with
    | none => rfl
    | some idleTs =>
      by_cases h : s.last_input_timestamp < idleTs <;> simp [h]

theorem mergeInput_not_logged_in (sampleIdle : Option Int) (s : MState) :
    mergeInput false sampleIdle s = s := rfl

theorem manage_activity_time_login_le (sampleLogin : Option Int)
    (loggedIn : Bool) (sampleIdle : Option Int) (s : MState) :
    s.last_login_timestamp ≤
      (manage_activity_time sampleLogin loggedIn sampleIdle s).last_login_timestamp := by
  unfold manage_activity_time
  calc s.last_login_timestamp
      ≤ (mergeLogin sampleLogin s).last_login_timestamp :=
        mergeLogin_login_le sampleLogin s
    _ ≤ _ := by
        rw [mergeInput_only_input loggedIn sampleIdle (mergeLogin sampleLogin s)]

theorem manage_activity_time_input_le (sampleLogin : Option Int)
    (loggedIn : Bool) (sampleIdle : Option Int) (s : MState) :
    s.last_input_timestamp ≤
      (manage_activity_time sampleLogin loggedIn sampleIdle s).last_input_timestamp := by
  unfold manage_activity_time
  calc s.last_input_timestamp
      ≤ (mergeLogin sampleLogin s).last_input_timestamp := by
        rw [mergeLogin_only_login sampleLogin s]
    _ ≤ _ := mergeInput_input_le loggedIn sampleIdle _

theorem manage_activity_time_other_fields (sampleLogin : Option Int)
    (loggedIn : Bool) (sampleIdle : Option Int) (s : MState) :
    (manage_activity_time sampleLogin loggedIn sampleIdle s) =
      { s with
        last_login_timestamp :=
          (manage_activity_time sampleLogin loggedIn sampleIdle s).last_login_timestamp
        last_input_timestamp :=
          (manage_activity_time sampleLogin loggedIn sampleIdle s).last_input_timestamp } := by
  unfold manage_activity_time
  rw [mergeInput_only_input loggedIn sampleIdle (mergeLogin sampleLogin s)]
  rw [mergeLogin_only_login sampleLogin s]

/-! ## Helper lemmas about the weekly block -/

theorem weeklyStep_eq (dateOf : ℚ → Int) (st : Settings) (now : Now)
    (s : MState) :
    weeklyStep dateOf st now s =
      if st.monitoring_weekly_enabled ∧ weeklyShouldSend dateOf st now s then
        ({ s with last_weekly_monitoring_sent := some now.ts }, [Email.weekly])
      else (s, []) := by
  unfold weeklyStep weeklyShouldSend
  cases h : st.monitoring_weekly_enabled <;>
    by_cases hc : now.weekday = st.monitoring_weekly_day ∧
      st.monitoring_weekly_hour ≤ now.hour ∧
      weeklyLastSentDate dateOf s ≠ some (dateOf now.ts) <;>
    simp [hc]

theorem weeklyStep_emails (dateOf : ℚ → Int) (st : Settings) (now : Now)
    (s : MState) :
    Email.weekly ∈ (weeklyStep dateOf st now s).2 ↔
      st.monitoring_weekly_enabled = true ∧ weeklyShouldSend dateOf st now s := by
  rw [weeklyStep_eq]
  by_cases h : st.monitoring_weekly_enabled ∧ weeklyShouldSend dateOf st now s <;>
    simp [h] <;> tauto

theorem weeklyStep_emails_sub (dateOf : ℚ → Int) (st : Settings) (now : Now)
    (s : MState) (e : Email) (he : e ∈ (weeklyStep dateOf st now s).2) :
    e = Email.weekly := by
  rw [weeklyStep_eq] at he
  by_cases h : st.monitoring_weekly_enabled ∧ weeklyShouldSend dateOf st now s <;>
    simp [h] at he
  exact he

theorem weeklyStep_state (dateOf : ℚ → Int) (st : Settings) (now : Now)
    (s : MState) :
    (weeklyStep dateOf st now s).1 =
      if st.monitoring_weekly_enabled ∧ weeklyShouldSend dateOf st now s then
        { s with last_weekly_monitoring_sent := some now.ts }
      else s := by
  rw [weeklyStep_eq]
  by_cases h : st.monitoring_weekly_enabled ∧ weeklyShouldSend dateOf st now s <;>
    simp [h]

theorem weeklyStep_sent_after_send (dateOf : ℚ → Int) (st : Settings)
    (now : Now) (s : MState)
    (h : Email.weekly ∈ (weeklyStep dateOf st now s).2) :
    (weeklyStep dateOf st now s).1.last_weekly_monitoring_sent = some now.ts := by
  rw [weeklyStep_emails] at h
  rw [weeklyStep_state]
  simp [h.1, h.2]

/-! ## Helper lemmas about the threshold section -/

theorem levelTick_snd (enabled above : Bool) (latch : Option Bool) :
    (levelTick enabled above latch).2 =
      (enabled && above && !(latch.getD false)) := by
  unfold levelTick
  cases enabled <;> cases above <;> cases h : latch.getD false <;> simp [h]

theorem levelTick_fst_enabled (above : Bool) (latch : Option Bool) :
    ((levelTick true above latch).1).getD false = above := by
  unfold levelTick
  cases above <;> rcases latch with _ | b <;> try rfl
  cases b <;> rfl

theorem levelTick_fst_disabled (above : Bool) (latch : Option Bool) :
    (levelTick false above latch).1 = latch := rfl

theorem levelTick_fst_enabled_below (latch : Option Bool) :
    (levelTick true false latch).1 = some false := rfl

theorem levelTick_no_dispatch_when_latched (enabled above : Bool) :
    (levelTick enabled above (some true)).2 = false := by
  rw [levelTick_snd]; simp

theorem thresholdStep_no_activity (st : Settings) (threshold nowTs : ℚ)
    (lastActivity : Int) (s : MState) (h : ¬ 0 < lastActivity) :
    thresholdStep st threshold nowTs lastActivity s = (s, []) := by
  unfold thresholdStep
  simp [h]

theorem thresholdStep_state_eq (st : Settings) (threshold nowTs : ℚ)
    (lastActivity : Int) (s : MState) :
    (thresholdStep st threshold nowTs lastActivity s).1 =
      { s with
        monitoring_at_30 :=
          (thresholdStep st threshold nowTs lastActivity s).1.monitoring_at_30
        monitoring_at_60 :=
          (thresholdStep st threshold nowTs lastActivity s).1.monitoring_at_60
        monitoring_at_90 :=
          (thresholdStep st threshold nowTs lastActivity s).1.monitoring_at_90
        threshold_reached :=
          (thresholdStep st threshold nowTs lastActivity s).1.threshold_reached } := by
  unfold thresholdStep
  by_cases hact : 0 < lastActivity <;> simp [hact]
  by_cases hterm : threshold ≤ inactivityMinutes nowTs lastActivity <;>
    simp [hterm]

theorem thresholdStep_reached (st : Settings) (threshold nowTs : ℚ)
    (lastActivity : Int) (s : MState) :
    (thresholdStep st threshold nowTs lastActivity s).1.threshold_reached =
      (s.threshold_reached ||
        (decide (0 < lastActivity) &&
          decide (threshold ≤ inactivityMinutes nowTs lastActivity))) := by
  unfold thresholdStep
  by_cases hact : 0 < lastActivity <;> simp [hact]
  by_cases hterm : threshold ≤ inactivityMinutes nowTs lastActivity <;>
    simp [hterm]

theorem thresholdStep_latch30 (st : Settings) (threshold nowTs : ℚ)
    (lastActivity : Int) (s : MState) :
    (thresholdStep st threshold nowTs lastActivity s).1.monitoring_at_30 =
      if 0 < lastActivity then
        (levelTick st.monitoring_at_30
          (decide (threshold * (3 / 10) ≤ inactivityMinutes nowTs lastActivity))
          s.monitoring_at_30).1
      else s.monitoring_at_30 := by
  unfold thresholdStep
  by_cases hact : 0 < lastActivity <;> simp [hact]
  by_cases hterm : threshold ≤ inactivityMinutes nowTs lastActivity <;>
    simp [hterm]

theorem thresholdStep_latch60 (st : Settings) (threshold nowTs : ℚ)
    (lastActivity : Int) (s : MState) :
    (thresholdStep st threshold nowTs lastActivity s).1.monitoring_at_60 =
      if 0 < lastActivity then
        (levelTick st.monitoring_at_60
          (decide (threshold * (6 / 10) ≤ inactivityMinutes nowTs lastActivity))
          s.monitoring_at_60).1
      else s.monitoring_at_60 := by
  unfold thresholdStep
  by_cases hact : 0 < lastActivity <;> simp [hact]
  by_cases hterm : threshold ≤ inactivityMinutes nowTs lastActivity <;>
    simp [hterm]

theorem thresholdStep_latch90 (st : Settings) (threshold nowTs : ℚ)
    (lastActivity : Int) (s : MState) :
    (thresholdStep st threshold nowTs lastActivity s).1.monitoring_at_90 =
      if 0 < lastActivity then
        (levelTick st.monitoring_at_90
          (decide (threshold * (9 / 10) ≤ inactivityMinutes nowTs lastActivity))
          s.monitoring_at_90).1
      else s.monitoring_at_90 := by
  unfold thresholdStep
  by_cases hact : 0 < lastActivity <;> simp [hact]
  by_cases hterm : threshold ≤ inactivityMinutes nowTs lastActivity <;>
    simp [hterm]

theorem thresholdStep_emails_mem (st : Settings) (threshold nowTs : ℚ)
    (lastActivity : Int) (s : MState) (e : Email) :
    e ∈ (thresholdStep st threshold nowTs lastActivity s).2 ↔
      0 < lastActivity ∧
        ((e = Email.threshold30 ∧
            (levelTick st.monitoring_at_30
              (decide (threshold * (3 / 10) ≤ inactivityMinutes nowTs lastActivity))
              s.monitoring_at_30).2 = true) ∨
          (e = Email.threshold60 ∧
            (levelTick st.monitoring_at_60
              (decide (threshold * (6 / 10) ≤ inactivityMinutes nowTs lastActivity))
              s.monitoring_at_60).2 = true) ∨
          (e = Email.threshold90 ∧
            (levelTick st.monitoring_at_90
              (decide (threshold * (9 / 10) ≤ inactivityMinutes nowTs lastActivity))
              s.monitoring_at_90).2 = true) ∨
          ((e = Email.alertRecipient ∨ e = Email.alertMonitoring) ∧
            threshold ≤ inactivityMinutes nowTs lastActivity)) := by
  unfold thresholdStep
  by_cases hact : 0 < lastActivity <;> simp [hact]
  by_cases hterm : threshold ≤ inactivityMinutes nowTs lastActivity <;>
    simp [hterm] <;> tauto

/-! ## Helper lemmas about one tick -/

theorem monitorTick_state (dateOf : ℚ → Int) (st : Settings) (threshold : ℚ)
    (inp : TickInput) (s : MState) :
    (monitorTick dateOf st threshold inp s).state =
      (thresholdStep st threshold inp.now.ts
        (lastActivityTimestamp (mergedOf inp s))
        (weeklyStep dateOf st inp.now (mergedOf inp s)).1).1 := rfl

theorem monitorTick_emails (dateOf : ℚ → Int) (st : Settings) (threshold : ℚ)
    (inp : TickInput) (s : MState) :
    (monitorTick dateOf st threshold inp s).emails =
      (weeklyStep dateOf st inp.now (mergedOf inp s)).2 ++
        (thresholdStep st threshold inp.now.ts
          (lastActivityTimestamp (mergedOf inp s))
          (weeklyStep dateOf st inp.now (mergedOf inp s)).1).2 := rfl

theorem monitorTick_trace (dateOf : ℚ → Int) (st : Settings) (threshold : ℚ)
    (inp : TickInput) (s : MState) :
    (monitorTick dateOf st threshold inp s).trace =
      if (monitorTick dateOf st threshold inp s).state.threshold_reached then
        [Step.sample, Step.merge, Step.weeklyEval, Step.thresholdEval,
          Step.persist]
      else
        [Step.sample, Step.merge, Step.weeklyEval, Step.thresholdEval,
          Step.persist, Step.delay] := by
  unfold monitorTick
  dsimp only
  split <;> rfl

theorem weeklyStep_only_sent (dateOf : ℚ → Int) (st : Settings) (now : Now)
    (s : MState) :
    (weeklyStep dateOf st now s).1 =
      { s with last_weekly_monitoring_sent :=
          (weeklyStep dateOf st now s).1.last_weekly_monitoring_sent } := by
  rw [weeklyStep_state]
  by_cases h : st.monitoring_weekly_enabled ∧ weeklyShouldSend dateOf st now s <;>
    simp [h]

theorem monitorTick_reached (dateOf : ℚ → Int) (st : Settings) (threshold : ℚ)
    (inp : TickInput) (s : MState) :
    (monitorTick dateOf st threshold inp s).state.threshold_reached =
      (s.threshold_reached ||
        (decide (0 < lastActivityTimestamp (mergedOf inp s)) &&
          decide (threshold ≤
            inactivityMinutes inp.now.ts
              (lastActivityTimestamp (mergedOf inp s))))) := by
  rw [monitorTick_state, thresholdStep_reached]
  have h1 : (weeklyStep dateOf st inp.now (mergedOf inp s)).1.threshold_reached =
      (mergedOf inp s).threshold_reached := by
    rw [weeklyStep_only_sent]
  have h2 : (mergedOf inp s).threshold_reached = s.threshold_reached := by
    unfold mergedOf
    rw [manage_activity_time_other_fields]
  rw [h1, h2]

theorem monitorTick_login_le (dateOf : ℚ → Int) (st : Settings)
    (threshold : ℚ) (inp : TickInput) (s : MState) :
    s.last_login_timestamp ≤
      (monitorTick dateOf st threshold inp s).state.last_login_timestamp := by
  rw [monitorTick_state]
  have h1 : (thresholdStep st threshold inp.now.ts
      (lastActivityTimestamp (mergedOf inp s))
      (weeklyStep dateOf st inp.now (mergedOf inp s)).1).1.last_login_timestamp =
      (weeklyStep dateOf st inp.now (mergedOf inp s)).1.last_login_timestamp := by
    rw [thresholdStep_state_eq]
  have h2 : (weeklyStep dateOf st inp.now (mergedOf inp s)).1.last_login_timestamp =
      (mergedOf inp s).last_login_timestamp := by
    rw [weeklyStep_only_sent]
  rw [h1, h2]
  exact manage_activity_time_login_le _ _ _ _

theorem monitorTick_input_le (dateOf : ℚ → Int) (st : Settings)
    (threshold : ℚ) (inp : TickInput) (s : MState) :
    s.last_input_timestamp ≤
      (monitorTick dateOf st threshold inp s).state.last_input_timestamp := by
  rw [monitorTick_state]
  have h1 : (thresholdStep st threshold inp.now.ts
      (lastActivityTimestamp (mergedOf inp s))
      (weeklyStep dateOf st inp.now (mergedOf inp s)).1).1.last_input_timestamp =
      (weeklyStep dateOf st inp.now (mergedOf inp s)).1.last_input_timestamp := by
    rw [thresholdStep_state_eq]
  have h2 : (weeklyStep dateOf st inp.now (mergedOf inp s)).1.last_input_timestamp =
      (mergedOf inp s).last_input_timestamp := by
    rw [weeklyStep_only_sent]
  rw [h1, h2]
  exact manage_activity_time_input_le _ _ _ _

/-! ## Helper lemmas about the loop -/

theorem runTicks_head (dateOf : ℚ → Int) (st : Settings) (threshold : ℚ)
    (inps : List TickInput) (s : MState)
    (h : 0 < (runTicks dateOf st threshold inps s).length) :
    ∃ inp, (runTicks dateOf st threshold inps s).getD 0 blankTick =
      monitorTick dateOf st threshold inp s := by
  cases inps with
  | nil => simp [runTicks] at h
  | cons inp rest =>
    refine ⟨inp, ?_⟩
    unfold runTicks
    dsimp only
    split <;> rfl

theorem runTicks_chain (dateOf : ℚ → Int) (st : Settings) (threshold : ℚ) :
    ∀ (inps : List TickInput) (s : MState) (k : Nat),
      k + 1 < (runTicks dateOf st threshold inps s).length →
      ∃ inp, (runTicks dateOf st threshold inps s).getD (k + 1) blankTick =
        monitorTick dateOf st threshold inp
          (((runTicks dateOf st threshold inps s).getD k blankTick).state) := by
  intro inps
  induction inps with
  | nil => intro s k h; simp [runTicks] at h
  | cons inp rest ih =>
    intro s k h
    unfold runTicks at h ⊢
    by_cases hr : (monitorTick dateOf st threshold inp s).state.threshold_reached
    · simp [hr] at h
    · simp only [hr, if_neg, Bool.false_eq_true, if_false] at h ⊢
      cases k with
      | zero =>
        have hlen : 0 <
            (runTicks dateOf st threshold rest
              (monitorTick dateOf st threshold inp s).state).length := by
          simp at h; omega
        obtain ⟨inp2, h2⟩ := runTicks_head dateOf st threshold rest _ hlen
        exact ⟨inp2, by simpa using h2⟩
      | succ k =>
        have hlen : k + 1 <
            (runTicks dateOf st threshold rest
              (monitorTick dateOf st threshold inp s).state).length := by
          simp at h; omega
        obtain ⟨inp2, h2⟩ := ih _ k hlen
        exact ⟨inp2, by simpa using h2⟩

theorem runTicks_not_reached_before_last (dateOf : ℚ → Int) (st : Settings)
    (threshold : ℚ) :
    ∀ (inps : List TickInput) (s : MState) (k : Nat),
      k + 1 < (runTicks dateOf st threshold inps s).length →
      (((runTicks dateOf st threshold inps s).getD k blankTick).state).threshold_reached
        = false := by
  intro inps
  induction inps with
  | nil => intro s k h; simp [runTicks] at h
  | cons inp rest ih =>
    intro s k h
    unfold runTicks at h ⊢
    by_cases hr : (monitorTick dateOf st threshold inp s).state.threshold_reached
    · simp [hr] at h
    · simp only [hr, if_neg, Bool.false_eq_true, if_false] at h ⊢
      cases k with
      | zero => simpa using hr
      | succ k =>
        have hlen : k + 1 <
            (runTicks dateOf st threshold rest
              (monitorTick dateOf st threshold inp s).state).length := by
          simp at h; omega
        simpa using ih _ k hlen

/-! ## Field-preservation lemmas composed across the phases of a tick -/

theorem mergedOf_sent (inp : TickInput) (s : MState) :
    (mergedOf inp s).last_weekly_monitoring_sent = s.last_weekly_monitoring_sent := by
  unfold mergedOf
  rw [manage_activity_time_other_fields]

theorem mergedOf_at30 (inp : TickInput) (s : MState) :
    (mergedOf inp s).monitoring_at_30 = s.monitoring_at_30 := by
  unfold mergedOf
  rw [manage_activity_time_other_fields]

theorem mergedOf_at60 (inp : TickInput) (s : MState) :
    (mergedOf inp s).monitoring_at_60 = s.monitoring_at_60 := by
  unfold mergedOf
  rw [manage_activity_time_other_fields]

theorem mergedOf_at90 (inp : TickInput) (s : MState) :
    (mergedOf inp s).monitoring_at_90 = s.monitoring_at_90 := by
  unfold mergedOf
  rw [manage_activity_time_other_fields]

theorem weeklyStep_at30 (dateOf : ℚ → Int) (st : Settings) (now : Now)
    (s : MState) :
    (weeklyStep dateOf st now s).1.monitoring_at_30 = s.monitoring_at_30 := by
  rw [weeklyStep_only_sent]

theorem weeklyStep_at60 (dateOf : ℚ → Int) (st : Settings) (now : Now)
    (s : MState) :
    (weeklyStep dateOf st now s).1.monitoring_at_60 = s.monitoring_at_60 := by
  rw [weeklyStep_only_sent]

theorem weeklyStep_at90 (dateOf : ℚ → Int) (st : Settings) (now : Now)
    (s : MState) :
    (weeklyStep dateOf st now s).1.monitoring_at_90 = s.monitoring_at_90 := by
  rw [weeklyStep_only_sent]

theorem weeklyLastSentDate_mergedOf (dateOf : ℚ → Int) (inp : TickInput)
    (s : MState) :
    weeklyLastSentDate dateOf (mergedOf inp s) = weeklyLastSentDate dateOf s := by
  unfold weeklyLastSentDate
  rw [mergedOf_sent]

theorem weeklyShouldSend_mergedOf (dateOf : ℚ → Int) (st : Settings)
    (inp : TickInput) (s : MState) :
    weeklyShouldSend dateOf st inp.now (mergedOf inp s) ↔
      weeklyShouldSend dateOf st inp.now s := by
  unfold weeklyShouldSend
  rw [weeklyLastSentDate_mergedOf]

/-! ## Email-membership lemmas for a whole tick -/

theorem monitorTick_weekly_mem (dateOf : ℚ → Int) (st : Settings)
    (threshold : ℚ) (inp : TickInput) (s : MState) :
    Email.weekly ∈ (monitorTick dateOf st threshold inp s).emails ↔
      (st.monitoring_weekly_enabled = true ∧
        weeklyShouldSend dateOf st inp.now s) := by
  rw [monitorTick_emails]
  simp only [List.mem_append]
  constructor
  · rintro (h | h)
    · have := (weeklyStep_emails _ _ _ _).1 h
      rwa [weeklyShouldSend_mergedOf] at this
    · have h2 := (thresholdStep_emails_mem _ _ _ _ _ Email.weekly).1 h
      simp at h2
  · intro h
    refine Or.inl ((weeklyStep_emails _ _ _ _).2 ?_)
    rwa [weeklyShouldSend_mergedOf]

theorem monitorTick_sent_after_send (dateOf : ℚ → Int) (st : Settings)
    (threshold : ℚ) (inp : TickInput) (s : MState)
    (h : Email.weekly ∈ (monitorTick dateOf st threshold inp s).emails) :
    (monitorTick dateOf st threshold inp s).state.last_weekly_monitoring_sent =
      some inp.now.ts := by
  rw [monitorTick_state]
  have h1 : (thresholdStep st threshold inp.now.ts
      (lastActivityTimestamp (mergedOf inp s))
      (weeklyStep dateOf st inp.now (mergedOf inp s)).1).1.last_weekly_monitoring_sent =
      (weeklyStep dateOf st inp.now (mergedOf inp s)).1.last_weekly_monitoring_sent := by
    rw [thresholdStep_state_eq]
  rw [h1]
  apply weeklyStep_sent_after_send
  rw [weeklyStep_emails]
  rw [monitorTick_weekly_mem] at h
  refine ⟨h.1, ?_⟩
  rw [weeklyShouldSend_mergedOf]
  exact h.2

theorem monitorTick_alertRecipient_mem (dateOf : ℚ → Int) (st : Settings)
    (threshold : ℚ) (inp : TickInput) (s : MState) :
    Email.alertRecipient ∈ (monitorTick dateOf st threshold inp s).emails ↔
      0 < lastActivityTimestamp (mergedOf inp s) ∧
        threshold ≤ inactivityMinutes inp.now.ts
          (lastActivityTimestamp (mergedOf inp s)) := by
  rw [monitorTick_emails]
  simp only [List.mem_append]
  constructor
  · rintro (h | h)
    · have := weeklyStep_emails_sub _ _ _ _ _ h
      simp at this
    · have h2 := (thresholdStep_emails_mem _ _ _ _ _ Email.alertRecipient).1 h
      simp at h2
      exact h2
  · intro h
    refine Or.inr ((thresholdStep_emails_mem _ _ _ _ _ Email.alertRecipient).2 ?_)
    exact ⟨h.1, Or.inr (Or.inr (Or.inr ⟨Or.inl rfl, h.2⟩))⟩

theorem monitorTick_alertMonitoring_mem (dateOf : ℚ → Int) (st : Settings)
    (threshold : ℚ) (inp : TickInput) (s : MState) :
    Email.alertMonitoring ∈ (monitorTick dateOf st threshold inp s).emails ↔
      0 < lastActivityTimestamp (mergedOf inp s) ∧
        threshold ≤ inactivityMinutes inp.now.ts
          (lastActivityTimestamp (mergedOf inp s)) := by
  rw [monitorTick_emails]
  simp only [List.mem_append]
  constructor
  · rintro (h | h)
    · have := weeklyStep_emails_sub _ _ _ _ _ h
      simp at this
    · have h2 := (thresholdStep_emails_mem _ _ _ _ _ Email.alertMonitoring).1 h
      simp at h2
      exact h2
  · intro h
    refine Or.inr ((thresholdStep_emails_mem _ _ _ _ _ Email.alertMonitoring).2 ?_)
    exact ⟨h.1, Or.inr (Or.inr (Or.inr ⟨Or.inr rfl, h.2⟩))⟩

theorem monitorTick_th30_mem (dateOf : ℚ → Int) (st : Settings)
    (threshold : ℚ) (inp : TickInput) (s : MState) :
    Email.threshold30 ∈ (monitorTick dateOf st threshold inp s).emails ↔
      0 < lastActivityTimestamp (mergedOf inp s) ∧
        (levelTick st.monitoring_at_30
          (decide (threshold * (3 / 10) ≤
            inactivityMinutes inp.now.ts (lastActivityTimestamp (mergedOf inp s))))
          s.monitoring_at_30).2 = true := by
  rw [monitorTick_emails]
  simp only [List.mem_append]
  constructor
  · rintro (h | h)
    · have := weeklyStep_emails_sub _ _ _ _ _ h
      simp at this
    · have h2 := (thresholdStep_emails_mem _ _ _ _ _ Email.threshold30).1 h
      rw [weeklyStep_at30, mergedOf_at30] at h2
      simp at h2
      exact h2
  · intro h
    refine Or.inr ((thresholdStep_emails_mem _ _ _ _ _ Email.threshold30).2 ?_)
    rw [weeklyStep_at30, mergedOf_at30]
    exact ⟨h.1, Or.inl ⟨rfl, h.2⟩⟩

theorem monitorTick_latch30 (dateOf : ℚ → Int) (st : Settings)
    (threshold : ℚ) (inp : TickInput) (s : MState) :
    (monitorTick dateOf st threshold inp s).state.monitoring_at_30 =
      if 0 < lastActivityTimestamp (mergedOf inp s) then
        (levelTick st.monitoring_at_30
          (decide (threshold * (3 / 10) ≤
            inactivityMinutes inp.now.ts (lastActivityTimestamp (mergedOf inp s))))
          s.monitoring_at_30).1
      else s.monitoring_at_30 := by
  rw [monitorTick_state, thresholdStep_latch30, weeklyStep_at30, mergedOf_at30]

theorem monitorTick_latch60 (dateOf : ℚ → Int) (st : Settings)
    (threshold : ℚ) (inp : TickInput) (s : MState) :
    (monitorTick dateOf st threshold inp s).state.monitoring_at_60 =
      if 0 < lastActivityTimestamp (mergedOf inp s) then
        (levelTick st.monitoring_at_60
          (decide (threshold * (6 / 10) ≤
            inactivityMinutes inp.now.ts (lastActivityTimestamp (mergedOf inp s))))
          s.monitoring_at_60).1
      else s.monitoring_at_60 := by
  rw [monitorTick_state, thresholdStep_latch60, weeklyStep_at60, mergedOf_at60]

theorem monitorTick_latch90 (dateOf : ℚ → Int) (st : Settings)
    (threshold : ℚ) (inp : TickInput) (s : MState) :
    (monitorTick dateOf st threshold inp s).state.monitoring_at_90 =
      if 0 < lastActivityTimestamp (mergedOf inp s) then
        (levelTick st.monitoring_at_90
          (decide (threshold * (9 / 10) ≤
            inactivityMinutes inp.now.ts (lastActivityTimestamp (mergedOf inp s))))
          s.monitoring_at_90).1
      else s.monitoring_at_90 := by
  rw [monitorTick_state, thresholdStep_latch90, weeklyStep_at90, mergedOf_at90]

/-! ## Helper lemmas about the per-level latch dynamics -/

theorem levelRun_nil (e : Bool) (l : Option Bool) : levelRun e l [] = [] := rfl

theorem levelRun_cons (e : Bool) (l : Option Bool) (a : Bool) (t : List Bool) :
    levelRun e l (a :: t) =
      (levelTick e a l).2 :: levelRun e (levelTick e a l).1 t := rfl

theorem levelRun_length (e : Bool) (l : Option Bool) (t : List Bool) :
    (levelRun e l t).length = t.length := by
  induction t generalizing l with
  | nil => rfl
  | cons a rest ih => rw [levelRun_cons]; simp [ih]

/-- Closed form of the enabled-level run: the dispatch flag of tick `k` is
"above the cutoff now, and the previous measured tick was not" (with the
initial latch playing the role of the previous tick at `k = 0`). -/
theorem levelRun_true_getD (l : Option Bool) (t : List Bool) :
    ∀ k, k < t.length →
      (levelRun true l t).getD k false =
        (t.getD k false &&
          !(if k = 0 then l.getD false else t.getD (k - 1) false)) := by
  induction t generalizing l with
  | nil => intro k h; simp at h
  | cons a rest ih =>
    intro k hk
    rw [levelRun_cons]
    cases k with
    | zero => simp [levelTick_snd]
    | succ k =>
      simp only [List.getD_cons_succ]
      rw [ih (levelTick true a l).1 k (by simpa using hk)]
      rw [levelTick_fst_enabled]
      cases k with
      | zero => simp
      | succ k => simp

/-! ## The claims -/

/-- C1 (counterexample to the claim as stated): a run of the monitor can
begin with the level's latch key already persisted as `true` (the state file
survives restarts and `reset_monitoring_flags` does not clear this key, see
C10).  Then a run consisting of one measured tick at or above the cutoff —
whose single maximal above-cutoff interval is the whole run — dispatches the
level's notification zero times, not exactly once. -/
theorem claim1_counterexample :
    List.all [true] (fun a => a) = true ∧
      levelRun true (some true) [true] = [false] := by decide

/-- C1 (amended): for a level enabled for the whole run, along the measured
ticks of a run, any maximal interval of consecutive at-or-above-cutoff ticks
dispatches the level's notification exactly once, on the interval's first
tick — provided the latch is not already set when the interval begins.
That proviso always holds when the interval is preceded by a below-cutoff
tick (crossing below resets the latch, so above–below–above gives exactly
two dispatches); at the very start of a run it holds exactly when the
loaded latch key is absent or false.  Below-cutoff ticks never dispatch. -/
theorem claim1_episode_dispatch (l0 : Option Bool) (t : List Bool) (i j : Nat)
    (hj : j < t.length) (hij : i ≤ j)
    (habove : ∀ k, k ≤ j → i ≤ k → t.getD k false = true)
    (hstart0 : i = 0 → l0.getD false = false)
    (hstart1 : 0 < i → t.getD (i - 1) false = false) :
    (levelRun true l0 t).getD i false = true ∧
      (∀ k, k ≤ j → i < k → (levelRun true l0 t).getD k false = false) ∧
      (∀ k, k < t.length → t.getD k false = false →
        (levelRun true l0 t).getD k false = false) := by
  have hi : i < t.length := lt_of_le_of_lt hij hj
  refine ⟨?_, ?_, ?_⟩
  · rw [levelRun_true_getD l0 t i hi]
    rcases Nat.eq_zero_or_pos i with h0 | hpos
    · subst h0
      rw [habove 0 hij le_rfl, if_pos rfl, hstart0 rfl]
      rfl
    · rw [habove i hij le_rfl, if_neg (by omega), hstart1 hpos]
      rfl
  · intro k hkj hik
    have hk : k < t.length := lt_of_le_of_lt hkj hj
    rw [levelRun_true_getD l0 t k hk]
    have h1 : t.getD k false = true := habove k hkj (by omega)
    have h2 : t.getD (k - 1) false = true := habove (k - 1) (by omega) (by omega)
    rw [h1, if_neg (by omega), h2]
    rfl
  · intro k hk hbelow
    rw [levelRun_true_getD l0 t k hk, hbelow]
    rfl

/-- C1 witness: an enabled level over the measured trace below–above–above
with the latch initially stuck at `true`: the maximal above-interval
`[1, 2]` dispatches on tick 1 and not on tick 2, and below ticks never
dispatch. -/
theorem claim1_episode_dispatch_witness :
    (levelRun true (some true) [false, true, true]).getD 1 false = true ∧
      (∀ k, k ≤ 2 → 1 < k →
        (levelRun true (some true) [false, true, true]).getD k false = false) ∧
      (∀ k, k < [false, true, true].length →
        [false, true, true].getD k false = false →
        (levelRun true (some true) [false, true, true]).getD k false = false) :=
  claim1_episode_dispatch (some true) [false, true, true] 1 2 (by decide)
    (by decide) (by decide) (fun h => absurd h (by decide)) (fun _ => by decide)

/-- C2 (confirmed): no tick ever turns `threshold_reached` from true to
false (the tick's only write to it is setting it true at
`service/monitor.py` line 286), and in the loop every executed tick except
possibly the last ends with `threshold_reached` false — i.e. once a tick
ends with it true the loop executes no further tick. -/
theorem claim2_terminal_latch (dateOf : ℚ → Int) (st : Settings)
    (threshold : ℚ) :
    (∀ (inp : TickInput) (s : MState), s.threshold_reached = true →
        (monitorTick dateOf st threshold inp s).state.threshold_reached = true) ∧
      (∀ (inps : List TickInput) (s : MState) (k : Nat),
        k + 1 < (runTicks dateOf st threshold inps s).length →
        (((runTicks dateOf st threshold inps s).getD k blankTick).state).threshold_reached
          = false) := by
  constructor
  · intro inp s h
    rw [monitorTick_reached, h]
    rfl
  · exact runTicks_not_reached_before_last dateOf st threshold

/-- C2 witness: a tick on a state with the latch already true keeps it true,
and in a concrete two-tick run the non-final tick ends with the latch
false. -/
theorem claim2_terminal_latch_witness :
    (monitorTick (fun _ => 0) ⟨false, false, false, false, 0, 0⟩ 100
        ⟨⟨0, 0, 0⟩, none, false, none⟩
        { DEFAULT_STATE with threshold_reached := true }).state.threshold_reached
      = true ∧
    (((runTicks (fun _ => 0) ⟨false, false, false, false, 0, 0⟩ 100
        [⟨⟨0, 0, 0⟩, none, false, none⟩, ⟨⟨0, 0, 0⟩, none, false, none⟩]
        DEFAULT_STATE).getD 0 blankTick).state).threshold_reached = false :=
  ⟨(claim2_terminal_latch (fun _ => 0) ⟨false, false, false, false, 0, 0⟩ 100).1
      ⟨⟨0, 0, 0⟩, none, false, none⟩
      { DEFAULT_STATE with threshold_reached := true } rfl,
    (claim2_terminal_latch (fun _ => 0) ⟨false, false, false, false, 0, 0⟩ 100).2
      [⟨⟨0, 0, 0⟩, none, false, none⟩, ⟨⟨0, 0, 0⟩, none, false, none⟩]
      DEFAULT_STATE 0 (by decide)⟩

/-- C3 (code bug): the sampling/merge step *always* raises to its caller.
`core/activity_manager.py` line 46 calls `get_last_input_time(enable_logs)`
with one argument, but `core/input.py` line 21 defines
`get_last_input_time()` with zero parameters, so every call raises
`TypeError` before any probing or merging happens — contradicting the
spec's guarantee that probe problems degrade to "no data" and never fail
the caller.  (The function's own body, `get_last_input_time_body`, does
return `None` on probe failure; it is simply never reachable through this
call.) -/
theorem claim3_sampling_step_raises (sampleLogin : Option Int)
    (loggedIn : Bool) (probeIdle : Option Int) (s : MState) :
    manage_activity_time_checked sampleLogin loggedIn probeIdle s =
      Except.error PyErr.typeError := rfl

/-- C4 (confirmed): each merge only ever raises the two watermarks (to a
strictly sampled newer value or not at all), and across any run of the loop
the persisted `last_login_timestamp` and `last_input_timestamp` are
non-decreasing tick-over-tick. -/
theorem claim4_watermarks_monotone (dateOf : ℚ → Int) (st : Settings)
    (threshold : ℚ) :
    (∀ (sampleLogin : Option Int) (loggedIn : Bool) (sampleIdle : Option Int)
        (s : MState),
        s.last_login_timestamp ≤
          (manage_activity_time sampleLogin loggedIn sampleIdle s).last_login_timestamp ∧
        s.last_input_timestamp ≤
          (manage_activity_time sampleLogin loggedIn sampleIdle s).last_input_timestamp) ∧
      (∀ (inps : List TickInput) (s : MState) (k : Nat),
        k + 1 < (runTicks dateOf st threshold inps s).length →
        (((runTicks dateOf st threshold inps s).getD k blankTick).state).last_login_timestamp ≤
          (((runTicks dateOf st threshold inps s).getD (k + 1) blankTick).state).last_login_timestamp ∧
        (((runTicks dateOf st threshold inps s).getD k blankTick).state).last_input_timestamp ≤
          (((runTicks dateOf st threshold inps s).getD (k + 1) blankTick).state).last_input_timestamp) := by
  constructor
  · intro sampleLogin loggedIn sampleIdle s
    exact ⟨manage_activity_time_login_le sampleLogin loggedIn sampleIdle s,
      manage_activity_time_input_le sampleLogin loggedIn sampleIdle s⟩
  · intro inps s k h
    obtain ⟨inp, h2⟩ := runTicks_chain dateOf st threshold inps s k h
    rw [h2]
    exact ⟨monitorTick_login_le _ _ _ _ _, monitorTick_input_le _ _ _ _ _⟩

/-- C4 witness: a concrete merge raises neither watermark below its old
value, and in a concrete two-tick run the persisted watermarks do not
decrease from tick 0 to tick 1. -/
theorem claim4_watermarks_monotone_witness :
    (DEFAULT_STATE.last_login_timestamp ≤
        (manage_activity_time (some 5) true (some 7) DEFAULT_STATE).last_login_timestamp ∧
      DEFAULT_STATE.last_input_timestamp ≤
        (manage_activity_time (some 5) true (some 7) DEFAULT_STATE).last_input_timestamp) ∧
    ((((runTicks (fun _ => 0) ⟨false, false, false, false, 0, 0⟩ 100
          [⟨⟨0, 0, 0⟩, none, false, none⟩, ⟨⟨0, 0, 0⟩, none, false, none⟩]
          DEFAULT_STATE).getD 0 blankTick).state).last_login_timestamp ≤
        (((runTicks (fun _ => 0) ⟨false, false, false, false, 0, 0⟩ 100
          [⟨⟨0, 0, 0⟩, none, false, none⟩, ⟨⟨0, 0, 0⟩, none, false, none⟩]
          DEFAULT_STATE).getD 1 blankTick).state).last_login_timestamp ∧
      (((runTicks (fun _ => 0) ⟨false, false, false, false, 0, 0⟩ 100
          [⟨⟨0, 0, 0⟩, none, false, none⟩, ⟨⟨0, 0, 0⟩, none, false, none⟩]
          DEFAULT_STATE).getD 0 blankTick).state).last_input_timestamp ≤
        (((runTicks (fun _ => 0) ⟨false, false, false, false, 0, 0⟩ 100
          [⟨⟨0, 0, 0⟩, none, false, none⟩, ⟨⟨0, 0, 0⟩, none, false, none⟩]
          DEFAULT_STATE).getD 1 blankTick).state).last_input_timestamp) :=
  ⟨(claim4_watermarks_monotone (fun _ => 0) ⟨false, false, false, false, 0, 0⟩ 100).1
      (some 5) true (some 7) DEFAULT_STATE,
    (claim4_watermarks_monotone (fun _ => 0) ⟨false, false, false, false, 0, 0⟩ 100).2
      [⟨⟨0, 0, 0⟩, none, false, none⟩, ⟨⟨0, 0, 0⟩, none, false, none⟩]
      DEFAULT_STATE 0 (by decide)⟩

/-- C5 (confirmed): when no session is active the merge leaves
`last_input_timestamp` unchanged for *every* sampled input value — in
particular even when the sample is present and strictly newer than the
stored watermark. -/
theorem claim5_input_gated_when_logged_out (sampleLogin : Option Int)
    (sampleIdle : Option Int) (s : MState) :
    (manage_activity_time sampleLogin false sampleIdle s).last_input_timestamp =
      s.last_input_timestamp := by
  show (mergeInput false sampleIdle (mergeLogin sampleLogin s)).last_input_timestamp = _
  rw [mergeInput_not_logged_in, mergeLogin_only_login]

/-- C6 (confirmed): with weekly monitoring enabled, a tick dispatches the
weekly email exactly when `now.weekday` equals the configured weekday,
`now.hour` is at or after the configured hour, and the send recorded in
state is not on today's calendar date; and after a dispatch, any later tick
on the same calendar date does not dispatch again — so two same-date
qualifying ticks produce exactly one dispatch. -/
theorem claim6_weekly_dispatch (dateOf : ℚ → Int) (st : Settings)
    (threshold : ℚ) (inp1 inp2 : TickInput) (s : MState)
    (hen : st.monitoring_weekly_enabled = true)
    (hts : 0 < inp1.now.ts) :
    (Email.weekly ∈ (monitorTick dateOf st threshold inp1 s).emails ↔
      (inp1.now.weekday = st.monitoring_weekly_day ∧
        st.monitoring_weekly_hour ≤ inp1.now.hour ∧
        weeklyLastSentDate dateOf s ≠ some (dateOf inp1.now.ts))) ∧
    (Email.weekly ∈ (monitorTick dateOf st threshold inp1 s).emails →
      dateOf inp2.now.ts = dateOf inp1.now.ts →
      Email.weekly ∉ (monitorTick dateOf st threshold inp2
        (monitorTick dateOf st threshold inp1 s).state).emails) := by
  constructor
  · rw [monitorTick_weekly_mem]
    unfold weeklyShouldSend
    simp [hen]
  · intro hsent hdate
    rw [monitorTick_weekly_mem]
    rintro ⟨-, hshould⟩
    have hws : weeklyLastSentDate dateOf
        (monitorTick dateOf st threshold inp1 s).state =
        some (dateOf inp1.now.ts) := by
      unfold weeklyLastSentDate
      rw [monitorTick_sent_after_send dateOf st threshold inp1 s hsent]
      simp [hts]
    exact hshould.2.2 (by rw [hws, hdate])

/-- C6 witness: weekly monitoring configured for weekday 2 at hour 9; a tick
at weekday 2, hour 10 with no recorded send dispatches, and a second tick on
the same calendar date does not. -/
theorem claim6_weekly_dispatch_witness :
    (Email.weekly ∈ (monitorTick (fun _ => 0) ⟨false, false, false, true, 2, 9⟩
        100 ⟨⟨2, 10, 100⟩, none, false, none⟩ DEFAULT_STATE).emails ↔
      ((2 : Nat) = 2 ∧ (9 : Nat) ≤ 10 ∧
        weeklyLastSentDate (fun _ => 0) DEFAULT_STATE ≠ some 0)) ∧
    Email.weekly ∉ (monitorTick (fun _ => 0) ⟨false, false, false, true, 2, 9⟩
        100 ⟨⟨2, 11, 200⟩, none, false, none⟩
        (monitorTick (fun _ => 0) ⟨false, false, false, true, 2, 9⟩
          100 ⟨⟨2, 10, 100⟩, none, false, none⟩ DEFAULT_STATE).state).emails :=
  ⟨(claim6_weekly_dispatch (fun _ => 0) ⟨false, false, false, true, 2, 9⟩ 100
      ⟨⟨2, 10, 100⟩, none, false, none⟩ ⟨⟨2, 11, 200⟩, none, false, none⟩
      DEFAULT_STATE rfl (by decide)).1,
    (claim6_weekly_dispatch (fun _ => 0) ⟨false, false, false, true, 2, 9⟩ 100
      ⟨⟨2, 10, 100⟩, none, false, none⟩ ⟨⟨2, 11, 200⟩, none, false, none⟩
      DEFAULT_STATE rfl (by decide)).2 (by decide) rfl⟩

unseal Rat.sub Rat.mul Rat.add Rat.inv in
/-- C7 (counterexample to the claim as stated): a tick measuring inactivity
strictly below the 30% cutoff does *not* force the latch to false when the
30% level is disabled — the whole per-level block, including the latch
bookkeeping, sits inside `if monitoring_at_30:` in `service/monitor.py`
lines 228-239.  Concretely: level disabled, latch persisted `some true`,
measured inactivity 1 minute < cutoff 30 minutes, yet the tick leaves the
latch at `some true`. -/
theorem claim7_counterexample :
    0 < lastActivityTimestamp (mergedOf ⟨⟨0, 0, 1060⟩, none, false, none⟩
        { DEFAULT_STATE with
            monitoring_at_30 := some true, last_input_timestamp := 1000 }) ∧
    inactivityMinutes (1060 : ℚ)
        (lastActivityTimestamp (mergedOf ⟨⟨0, 0, 1060⟩, none, false, none⟩
          { DEFAULT_STATE with
              monitoring_at_30 := some true, last_input_timestamp := 1000 })) <
      100 * (3 / 10) ∧
    (monitorTick (fun _ => 0) ⟨false, false, false, false, 0, 0⟩ 100
        ⟨⟨0, 0, 1060⟩, none, false, none⟩
        { DEFAULT_STATE with
            monitoring_at_30 := some true,
            last_input_timestamp := 1000 }).state.monitoring_at_30 =
      some true := by decide

/-- C7 (amended): on a tick with a usable measurement, inactivity strictly
below a level's cutoff forces that level's latch to `false` *only when the
level's notification is enabled*; when the level is disabled the tick leaves
the latch untouched (disabling a level suppresses the dispatch *and* the
latch bookkeeping). -/
theorem claim7_latch_reset_only_when_enabled (dateOf : ℚ → Int)
    (st : Settings) (threshold : ℚ) (inp : TickInput) (s : MState)
    (hact : 0 < lastActivityTimestamp (mergedOf inp s)) :
    ((st.monitoring_at_30 = true →
        inactivityMinutes inp.now.ts (lastActivityTimestamp (mergedOf inp s)) <
          threshold * (3 / 10) →
        (monitorTick dateOf st threshold inp s).state.monitoring_at_30 =
          some false) ∧
      (st.monitoring_at_30 = false →
        (monitorTick dateOf st threshold inp s).state.monitoring_at_30 =
          s.monitoring_at_30)) ∧
    ((st.monitoring_at_60 = true →
        inactivityMinutes inp.now.ts (lastActivityTimestamp (mergedOf inp s)) <
          threshold * (6 / 10) →
        (monitorTick dateOf st threshold inp s).state.monitoring_at_60 =
          some false) ∧
      (st.monitoring_at_60 = false →
        (monitorTick dateOf st threshold inp s).state.monitoring_at_60 =
          s.monitoring_at_60)) ∧
    ((st.monitoring_at_90 = true →
        inactivityMinutes inp.now.ts (lastActivityTimestamp (mergedOf inp s)) <
          threshold * (9 / 10) →
        (monitorTick dateOf st threshold inp s).state.monitoring_at_90 =
          some false) ∧
      (st.monitoring_at_90 = false →
        (monitorTick dateOf st threshold inp s).state.monitoring_at_90 =
          s.monitoring_at_90)) := by
  refine ⟨⟨?_, ?_⟩, ⟨?_, ?_⟩, ⟨?_, ?_⟩⟩
  · intro hen hlt
    rw [monitorTick_latch30, if_pos hact, hen,
      decide_eq_false (not_le.mpr hlt), levelTick_fst_enabled_below]
  · intro hdis
    rw [monitorTick_latch30, if_pos hact, hdis, levelTick_fst_disabled]
  · intro hen hlt
    rw [monitorTick_latch60, if_pos hact, hen,
      decide_eq_false (not_le.mpr hlt), levelTick_fst_enabled_below]
  · intro hdis
    rw [monitorTick_latch60, if_pos hact, hdis, levelTick_fst_disabled]
  · intro hen hlt
    rw [monitorTick_latch90, if_pos hact, hen,
      decide_eq_false (not_le.mpr hlt), levelTick_fst_enabled_below]
  · intro hdis
    rw [monitorTick_latch90, if_pos hact, hdis, levelTick_fst_disabled]

/-- C7 witness: the amended statement applied at a concrete measured tick
(all three levels enabled, inactivity 1 minute, threshold 100 minutes). -/
theorem claim7_latch_reset_only_when_enabled_witness :
    (((⟨true, true, true, false, 0, 0⟩ : Settings).monitoring_at_30 = true →
        inactivityMinutes (⟨⟨0, 0, 1060⟩, none, false, none⟩ : TickInput).now.ts
          (lastActivityTimestamp (mergedOf ⟨⟨0, 0, 1060⟩, none, false, none⟩
            { DEFAULT_STATE with
                monitoring_at_30 := some true, last_input_timestamp := 1000 })) <
          100 * (3 / 10) →
        (monitorTick (fun _ => 0) ⟨true, true, true, false, 0, 0⟩ 100
          ⟨⟨0, 0, 1060⟩, none, false, none⟩
          { DEFAULT_STATE with
              monitoring_at_30 := some true,
              last_input_timestamp := 1000 }).state.monitoring_at_30 =
          some false) ∧
      ((⟨true, true, true, false, 0, 0⟩ : Settings).monitoring_at_30 = false →
        (monitorTick (fun _ => 0) ⟨true, true, true, false, 0, 0⟩ 100
          ⟨⟨0, 0, 1060⟩, none, false, none⟩
          { DEFAULT_STATE with
              monitoring_at_30 := some true,
              last_input_timestamp := 1000 }).state.monitoring_at_30 =
          ({ DEFAULT_STATE with
              monitoring_at_30 := some true,
              last_input_timestamp := 1000 } : MState).monitoring_at_30)) ∧
    (((⟨true, true, true, false, 0, 0⟩ : Settings).monitoring_at_60 = true →
        inactivityMinutes (⟨⟨0, 0, 1060⟩, none, false, none⟩ : TickInput).now.ts
          (lastActivityTimestamp (mergedOf ⟨⟨0, 0, 1060⟩, none, false, none⟩
            { DEFAULT_STATE with
                monitoring_at_30 := some true, last_input_timestamp := 1000 })) <
          100 * (6 / 10) →
        (monitorTick (fun _ => 0) ⟨true, true, true, false, 0, 0⟩ 100
          ⟨⟨0, 0, 1060⟩, none, false, none⟩
          { DEFAULT_STATE with
              monitoring_at_30 := some true,
              last_input_timestamp := 1000 }).state.monitoring_at_60 =
          some false) ∧
      ((⟨true, true, true, false, 0, 0⟩ : Settings).monitoring_at_60 = false →
        (monitorTick (fun _ => 0) ⟨true, true, true, false, 0, 0⟩ 100
          ⟨⟨0, 0, 1060⟩, none, false, none⟩
          { DEFAULT_STATE with
              monitoring_at_30 := some true,
              last_input_timestamp := 1000 }).state.monitoring_at_60 =
          ({ DEFAULT_STATE with
              monitoring_at_30 := some true,
              last_input_timestamp := 1000 } : MState).monitoring_at_60)) ∧
    (((⟨true, true, true, false, 0, 0⟩ : Settings).monitoring_at_90 = true →
        inactivityMinutes (⟨⟨0, 0, 1060⟩, none, false, none⟩ : TickInput).now.ts
          (lastActivityTimestamp (mergedOf ⟨⟨0, 0, 1060⟩, none, false, none⟩
            { DEFAULT_STATE with
                monitoring_at_30 := some true, last_input_timestamp := 1000 })) <
          100 * (9 / 10) →
        (monitorTick (fun _ => 0) ⟨true, true, true, false, 0, 0⟩ 100
          ⟨⟨0, 0, 1060⟩, none, false, none⟩
          { DEFAULT_STATE with
              monitoring_at_30 := some true,
              last_input_timestamp := 1000 }).state.monitoring_at_90 =
          some false) ∧
      ((⟨true, true, true, false, 0, 0⟩ : Settings).monitoring_at_90 = false →
        (monitorTick (fun _ => 0) ⟨true, true, true, false, 0, 0⟩ 100
          ⟨⟨0, 0, 1060⟩, none, false, none⟩
          { DEFAULT_STATE with
              monitoring_at_30 := some true,
              last_input_timestamp := 1000 }).state.monitoring_at_90 =
          ({ DEFAULT_STATE with
              monitoring_at_30 := some true,
              last_input_timestamp := 1000 } : MState).monitoring_at_90)) :=
  claim7_latch_reset_only_when_enabled (fun _ => 0)
    ⟨true, true, true, false, 0, 0⟩ 100 ⟨⟨0, 0, 1060⟩, none, false, none⟩
    { DEFAULT_STATE with
        monitoring_at_30 := some true, last_input_timestamp := 1000 }
    (by decide)

unseal Rat.sub Rat.mul Rat.add Rat.inv in
/-- C8 (counterexample to the claim as stated): the terminal block at
`service/monitor.py` lines 280-286 has no `threshold_reached` guard, so a
tick whose loaded state already has `threshold_reached = true` *does*
dispatch the terminal notifications again when the measured inactivity is
at or past `timeout_minutes` (state watermark 1, now 601s, threshold 10
minutes: inactivity is exactly 10 minutes). -/
theorem claim8_counterexample :
    ({ DEFAULT_STATE with
        threshold_reached := true,
        last_input_timestamp := 1 } : MState).threshold_reached = true ∧
    Email.alertRecipient ∈ (monitorTick (fun _ => 0)
        ⟨false, false, false, false, 0, 0⟩ 10 ⟨⟨0, 0, 601⟩, none, false, none⟩
        { DEFAULT_STATE with
            threshold_reached := true,
            last_input_timestamp := 1 }).emails := by decide

/-- C8 (amended): a tick dispatches the two terminal notifications exactly
when a usable activity watermark exists and the measured inactivity is at
least `timeout_minutes` — irrespective of whether `threshold_reached` is
already true; and the saved `threshold_reached` is the loaded value OR-ed
with that condition.  (Protection against a dispatch after the episode has
ended comes from the startup guard and from the loop breaking, not from the
tick itself.) -/
theorem claim8_terminal_dispatch (dateOf : ℚ → Int) (st : Settings)
    (threshold : ℚ) (inp : TickInput) (s : MState) :
    (Email.alertRecipient ∈ (monitorTick dateOf st threshold inp s).emails ↔
      0 < lastActivityTimestamp (mergedOf inp s) ∧
        threshold ≤ inactivityMinutes inp.now.ts
          (lastActivityTimestamp (mergedOf inp s))) ∧
    (Email.alertMonitoring ∈ (monitorTick dateOf st threshold inp s).emails ↔
      0 < lastActivityTimestamp (mergedOf inp s) ∧
        threshold ≤ inactivityMinutes inp.now.ts
          (lastActivityTimestamp (mergedOf inp s))) ∧
    ((monitorTick dateOf st threshold inp s).state.threshold_reached =
      (s.threshold_reached ||
        (decide (0 < lastActivityTimestamp (mergedOf inp s)) &&
          decide (threshold ≤ inactivityMinutes inp.now.ts
            (lastActivityTimestamp (mergedOf inp s)))))) :=
  ⟨monitorTick_alertRecipient_mem dateOf st threshold inp s,
    monitorTick_alertMonitoring_mem dateOf st threshold inp s,
    monitorTick_reached dateOf st threshold inp s⟩

/-- C9 (counterexample to the claim as stated): in a concrete tick's phase
trace the weekly-schedule evaluation comes strictly *before* the threshold
evaluation, contradicting the claimed order
sample → merge → threshold → schedule. -/
theorem claim9_counterexample :
    (monitorTick (fun _ => 0) ⟨false, false, false, false, 0, 0⟩ 100
        ⟨⟨0, 0, 0⟩, none, false, none⟩ DEFAULT_STATE).trace.indexOf
        Step.weeklyEval <
      (monitorTick (fun _ => 0) ⟨false, false, false, false, 0, 0⟩ 100
        ⟨⟨0, 0, 0⟩, none, false, none⟩ DEFAULT_STATE).trace.indexOf
        Step.thresholdEval := by decide

/-- C9 (amended): every tick performs its phases in the order
sample → merge → weekly-schedule evaluation → threshold evaluation →
persist, followed by the fixed 30-second delay on every tick except one
that ends with `threshold_reached` (the loop breaks before sleeping). -/
theorem claim9_tick_order (dateOf : ℚ → Int) (st : Settings) (threshold : ℚ)
    (inp : TickInput) (s : MState) :
    (monitorTick dateOf st threshold inp s).trace =
      if (monitorTick dateOf st threshold inp s).state.threshold_reached then
        [Step.sample, Step.merge, Step.weeklyEval, Step.thresholdEval,
          Step.persist]
      else
        [Step.sample, Step.merge, Step.weeklyEval, Step.thresholdEval,
          Step.persist, Step.delay] :=
  monitorTick_trace dateOf st threshold inp s

/-- C10 (confirmed): `reset_monitoring_flags` sets `threshold_reached` and
`service_disabled` (and the three `monitoring_NN_reached` keys) to false but
leaves `monitoring_at_30/60/90` — the latch keys the loop actually reads and
writes — unchanged, because it resets differently named keys; consequently a
latch that was `true` before the reset still suppresses that level's
notification on a tick run after the reset. -/
theorem claim10_reset_misses_latch_keys (dateOf : ℚ → Int) (st : Settings)
    (threshold : ℚ) (inp : TickInput) (s : MState)
    (h30 : s.monitoring_at_30 = some true) :
    (reset_monitoring_flags s).threshold_reached = false ∧
    (reset_monitoring_flags s).service_disabled = false ∧
    (reset_monitoring_flags s).monitoring_30_reached = false ∧
    (reset_monitoring_flags s).monitoring_60_reached = false ∧
    (reset_monitoring_flags s).monitoring_90_reached = false ∧
    (reset_monitoring_flags s).monitoring_at_30 = s.monitoring_at_30 ∧
    (reset_monitoring_flags s).monitoring_at_60 = s.monitoring_at_60 ∧
    (reset_monitoring_flags s).monitoring_at_90 = s.monitoring_at_90 ∧
    Email.threshold30 ∉
      (monitorTick dateOf st threshold inp (reset_monitoring_flags s)).emails := by
  refine ⟨rfl, rfl, rfl, rfl, rfl, rfl, rfl, rfl, ?_⟩
  rw [monitorTick_th30_mem]
  rintro ⟨-, hdisp⟩
  have hres : (reset_monitoring_flags s).monitoring_at_30 = some true := h30
  rw [hres, levelTick_snd] at hdisp
  simp at hdisp

/-- C10 witness: a state with the 30% latch stuck at `true` (and both run
flags set), reset and then run through a tick that is enabled at 30% and
measures inactivity past the 30% cutoff: the flags are cleared, the latch
keys survive, and no 30% email is sent. -/
theorem claim10_reset_misses_latch_keys_witness :
    (reset_monitoring_flags { DEFAULT_STATE with
        monitoring_at_30 := some true, threshold_reached := true,
        service_disabled := true,
        last_input_timestamp := 1 }).threshold_reached = false ∧
    (reset_monitoring_flags { DEFAULT_STATE with
        monitoring_at_30 := some true, threshold_reached := true,
        service_disabled := true,
        last_input_timestamp := 1 }).service_disabled = false ∧
    (reset_monitoring_flags { DEFAULT_STATE with
        monitoring_at_30 := some true, threshold_reached := true,
        service_disabled := true,
        last_input_timestamp := 1 }).monitoring_30_reached = false ∧
    (reset_monitoring_flags { DEFAULT_STATE with
        monitoring_at_30 := some true, threshold_reached := true,
        service_disabled := true,
        last_input_timestamp := 1 }).monitoring_60_reached = false ∧
    (reset_monitoring_flags { DEFAULT_STATE with
        monitoring_at_30 := some true, threshold_reached := true,
        service_disabled := true,
        last_input_timestamp := 1 }).monitoring_90_reached = false ∧
    (reset_monitoring_flags { DEFAULT_STATE with
        monitoring_at_30 := some true, threshold_reached := true,
        service_disabled := true,
        last_input_timestamp := 1 }).monitoring_at_30 =
      ({ DEFAULT_STATE with
          monitoring_at_30 := some true, threshold_reached := true,
          service_disabled := true,
          last_input_timestamp := 1 } : MState).monitoring_at_30 ∧
    (reset_monitoring_flags { DEFAULT_STATE with
        monitoring_at_30 := some true, threshold_reached := true,
        service_disabled := true,
        last_input_timestamp := 1 }).monitoring_at_60 =
      ({ DEFAULT_STATE with
          monitoring_at_30 := some true, threshold_reached := true,
          service_disabled := true,
          last_input_timestamp := 1 } : MState).monitoring_at_60 ∧
    (reset_monitoring_flags { DEFAULT_STATE with
        monitoring_at_30 := some true, threshold_reached := true,
        service_disabled := true,
        last_input_timestamp := 1 }).monitoring_at_90 =
      ({ DEFAULT_STATE with
          monitoring_at_30 := some true, threshold_reached := true,
          service_disabled := true,
          last_input_timestamp := 1 } : MState).monitoring_at_90 ∧
    Email.threshold30 ∉
      (monitorTick (fun _ => 0) ⟨true, false, false, false, 0, 0⟩ 20
        ⟨⟨0, 0, 601⟩, none, false, none⟩
        (reset_monitoring_flags { DEFAULT_STATE with
            monitoring_at_30 := some true, threshold_reached := true,
            service_disabled := true, last_input_timestamp := 1 })).emails :=
  claim10_reset_misses_latch_keys (fun _ => 0) ⟨true, false, false, false, 0, 0⟩
    20 ⟨⟨0, 0, 601⟩, none, false, none⟩
    { DEFAULT_STATE with
        monitoring_at_30 := some true, threshold_reached := true,
        service_disabled := true, last_input_timestamp := 1 } rfl

end InactivityMonitor
